import Mathlib

/-!
Verification development for the NeuroAssist clinical decision engine.

The engine turns a structured patient assessment into a stroke-type
classification, a confidence estimate, a thrombolytic-eligibility verdict and
one of four canonical action protocols.  The decision procedure is the one
spelled out, step by step, in the diagnostic protocol of
src/ai/flows/predict-stroke-type.ts (the canonical variant with an optional
CT image and the Siriraj stroke score), the client-side validator
symptomSchema, and the tPA dosing calculator of the results display.
All numeric fields are modelled as exact rationals.
-/

namespace NeuroAssist

/-- Arm weakness options, from the armWeakness enum of the input schema. -/
inductive ArmWeakness
  | noWeakness
  | left
  | right
  | both
deriving DecidableEq

/-- Level of consciousness, from the levelOfConsciousness enum. -/
inductive LevelOfConsciousness
  | conscious
  | drowsy
  | comatose
deriving DecidableEq

/-- Stroke types, from the strokeType enum of the output schema. -/
inductive StrokeType
  | ischemic
  | hemorrhagic
  | uncertain
deriving DecidableEq

/-- Which diagnostic method produced the verdict (Step 1 of the diagnostic
protocol: CT image when provided, Siriraj score otherwise). -/
inductive Method
  | imageAnalysis
  | sirirajScore
deriving DecidableEq

/-- Qualitative clarity band reported by the external image-analysis
capability (Step 2, CT branch: high, medium, low). -/
inductive Clarity
  | high
  | medium
  | low
deriving DecidableEq

/-- Magnitude band of the Siriraj score used for confidence calibration
(Step 2, Siriraj branch). -/
inductive Band
  | strong
  | moderate
  | weak
deriving DecidableEq

/-- A validated patient assessment, from PredictStrokeTypeInputSchema of
predict-stroke-type.ts: ctScanImage is an optional data URI, all numeric
fields are numbers, the remaining fields are booleans and enums. -/
structure PatientAssessment where
  ctScanImage : Option String
  timeSinceOnset : ℚ
  faceDroop : Bool
  speechSlurred : Bool
  armWeakness : ArmWeakness
  systolicBloodPressure : Option ℚ
  historyHypertension : Bool
  historyDiabetes : Bool
  historySmoking : Bool
  levelOfConsciousness : LevelOfConsciousness
  vomiting : Bool
  headache : Bool
  diastolicBloodPressure : ℚ
deriving DecidableEq

/-- LOC points of the Siriraj formula: 0 for Conscious, 1 for Drowsy,
2 for Comatose. -/
def locPoints : LevelOfConsciousness → ℚ
  | .conscious => 0
  | .drowsy => 1
  | .comatose => 2

/-- Indicator used by the Siriraj formula: 1 if true, 0 if false. -/
def flag (b : Bool) : ℚ := if b then 1 else 0

/-- The Siriraj stroke score from Method B of the diagnostic protocol:
Score = (2.5 x LOC) + (2 x V) + (2 x H) + (0.1 x DBP) - (3 x A) - 12,
where A is 1 when the patient has a history of hypertension or diabetes
or smoking. -/
def sirirajScore (a : PatientAssessment) : ℚ :=
  2.5 * locPoints a.levelOfConsciousness
    + 2 * flag a.vomiting
    + 2 * flag a.headache
    + 0.1 * a.diastolicBloodPressure
    - 3 * flag (a.historyHypertension || a.historyDiabetes || a.historySmoking)
    - 12

/-- Score interpretation from Method B: above +1 Hemorrhagic, below -1
Ischemic, between -1 and +1 inclusive Uncertain. -/
def interpretScore (s : ℚ) : StrokeType :=
  if 1 < s then .hemorrhagic
  else if s < -1 then .ischemic
  else .uncertain

/-- Magnitude band of the score used in Step 2: strongly positive or
negative beyond 2 is strong, magnitude in (1, 2] is moderate, the
indeterminate zone of magnitude at most 1 is weak. -/
def scoreBand (s : ℚ) : Band :=
  if 2 < |s| then .strong
  else if 1 < |s| then .moderate
  else .weak

/-- Siriraj-path confidence.  Step 2 of the protocol fixes a range per band:
high 0.85 to 0.95, medium 0.6 to 0.84, low 0.4 to 0.59.  Modelled from the
spec for the exact point inside the band: the spec requires the
deterministic rewrite to pick the midpoint of the band. -/
def sirirajConfidence : Band → ℚ
  | .strong => 0.9
  | .moderate => 0.72
  | .weak => 0.495

/-- Image-path confidence.  Step 2 fixes a range per clarity band: high
0.8 to 1.0, medium 0.5 to 0.79, low below 0.5 (bounded below by 0 through
the output schema).  Modelled from the spec for the exact point inside the
band: the midpoint of the band. -/
def imageConfidence : Clarity → ℚ
  | .high => 0.9
  | .medium => 0.645
  | .low => 0.25

/-- Step 3 of the protocol: a patient is tPA eligible only if the stroke
type is Ischemic and the time since onset is less than 270 minutes; not
eligible under any other circumstances. -/
def tpaRule (st : StrokeType) (t : ℚ) : Bool :=
  decide (st = .ischemic) && decide (t < 270)

/-- Canonical action text for a hemorrhagic stroke, verbatim from the
action-formulation section of the prompt. -/
def hemorrhagicActionText : String :=
  "❌ HEMORRHAGIC STROKE DETECTED – tPA CONTRAINDICATED\nUrgent neurosurgical consultation and emergency transfer required.\n\nImmediate Actions:\nAlert Nearby Hospitals: Notify stroke centers of an incoming critical patient.\nActivate Satellite Comms (if available): If in a remote area with no internet, use satellite device for emergency communication.\n\nStabilization Protocol:\nStabilize Blood Pressure: Check BP immediately. If SBP > 180 mmHg, administer antihypertensives to lower it gradually.\nElevate Head: Keep patient\x27s head elevated to 30 degrees to reduce intracranial pressure.\nMinimize Stimulation: Reduce light, sound, and movement.\nControl Fever: Apply cool packs if the patient is feverish to reduce brain metabolism."

/-- Canonical action text for an ischemic stroke with tPA eligibility,
verbatim from the prompt. -/
def ischemicEligibleActionText : String :=
  "✅ ISCHEMIC STROKE: tPA ELIGIBLE\nInitiate tPA administration immediately per protocol.\n\nTreatment Protocol:\nAdminister Alteplase (tPA): Dose at 0.9 mg/kg (max 90 mg). Give 10% as a bolus over 1 minute, then infuse the remainder over 60 minutes.\nMonitor Vitals: Check blood pressure and neurological status every 15 minutes during infusion and for 2 hours after.\nBlood Pressure Control: Maintain BP < 180/105 mmHg.\nPrepare for Transfer: Arrange for immediate transfer to a comprehensive stroke center for ongoing care and potential endovascular therapy."

/-- Canonical action text for an ischemic stroke without tPA eligibility,
verbatim from the prompt. -/
def ischemicNotEligibleActionText : String :=
  "⚠️ ISCHEMIC STROKE: tPA NOT ELIGIBLE\nPatient is outside the treatment window or has contraindications for tPA.\n\nSupportive Care Plan:\nInitiate Antiplatelet Therapy: Administer Aspirin (e.g., 325 mg) once hemorrhage is definitively ruled out.\nPermissive Hypertension: Do not lower blood pressure unless it is extremely high (e.g., >220/120 mmHg).\nMonitor Vitals: Closely monitor neurological status, blood pressure, and glucose.\nNeurological Consultation: Seek urgent neurological consultation and arrange transfer to a stroke-ready hospital."

/-- Canonical action text for an uncertain diagnosis, verbatim from the
prompt. -/
def uncertainActionText : String :=
  "❓ DIAGNOSIS UNCERTAIN – DO NOT ADMINISTER tPA\nFurther investigation is required before initiating stroke-specific treatment.\n\nImmediate Actions:\nStabilize Patient: Provide supportive care, manage airway, breathing, and circulation.\nUrgent Consultation: Seek immediate neurological consultation.\nAdvanced Imaging: Arrange for urgent advanced imaging (e.g., MRI/MRA or CT angiography) to clarify diagnosis.\nMonitor Closely: Continuously monitor vital signs and neurological status for any changes."

/-- Action protocol selection from the action-formulation section: the text
is keyed on the stroke type and, for ischemic strokes, on tPA
eligibility. -/
def selectAction : StrokeType → Bool → String
  | .hemorrhagic, _ => hemorrhagicActionText
  | .ischemic, true => ischemicEligibleActionText
  | .ischemic, false => ischemicNotEligibleActionText
  | .uncertain, _ => uncertainActionText

/-- The diagnosis result, from PredictStrokeTypeOutputSchema, with an extra
field recording which diagnostic method of Step 1 produced it. -/
structure DiagnosisResult where
  strokeType : StrokeType
  confidence : ℚ
  tpaEligible : Bool
  action : String
  methodUsed : Method
deriving DecidableEq

/-- The output-schema constraint of PredictStrokeTypeOutputSchema: the zod
schema declares confidence with min 0 and max 1, so a result outside that
interval fails schema validation and is never returned. -/
def outputSchemaOk (r : DiagnosisResult) : Bool :=
  decide (0 ≤ r.confidence) && decide (r.confidence ≤ 1)

/-- Outcome of the external image-analysis capability for an assessment
that carries a CT image: either a verdict with a clarity band, or a
failure of the capability. -/
inductive ImageOutcome
  | classified (verdict : StrokeType) (clarity : Clarity)
  | failed
deriving DecidableEq

/-- Error kinds surfaced by an evaluation.  classificationUnavailable is
the name the specification gives to a propagated failure of the external
image capability; the flow rethrows it to the caller, which reports the
failure and performs no fallback.  schemaViolation models an output that
fails the zod output schema. -/
inductive EngineError
  | classificationUnavailable
  | schemaViolation
deriving DecidableEq

/-- The Siriraj-path result (Method B followed by Steps 2 and 3 and the
action formulation). -/
def sirirajResult (a : PatientAssessment) : DiagnosisResult :=
  let s := sirirajScore a
  let st := interpretScore s
  { strokeType := st
    confidence := sirirajConfidence (scoreBand s)
    tpaEligible := tpaRule st a.timeSinceOnset
    action := selectAction st (tpaRule st a.timeSinceOnset)
    methodUsed := .sirirajScore }

/-- The image-path result (Method A: the verdict of the capability is taken
as the stroke type, followed by Steps 2 and 3 and the action
formulation). -/
def imageResult (a : PatientAssessment) (v : StrokeType) (c : Clarity) :
    DiagnosisResult :=
  { strokeType := v
    confidence := imageConfidence c
    tpaEligible := tpaRule v a.timeSinceOnset
    action := selectAction v (tpaRule v a.timeSinceOnset)
    methodUsed := .imageAnalysis }

/-- One evaluation of the flow.  Step 1 of the diagnostic protocol routes
on the presence of the CT image: when an image is provided its analysis is
the primary method, and a failure of the capability propagates out of the
flow; when no image is provided the Siriraj score must be used.  The
produced output is validated against the output schema. -/
def diagnose (a : PatientAssessment) (img : ImageOutcome) :
    Except EngineError DiagnosisResult :=
  match a.ctScanImage with
  | some _ =>
    match img with
    | .failed => .error .classificationUnavailable
    | .classified v c =>
      let r := imageResult a v c
      if outputSchemaOk r then .ok r else .error .schemaViolation
  | none =>
    let r := sirirajResult a
    if outputSchemaOk r then .ok r else .error .schemaViolation

/-- A batch of successive evaluations.  The flow module holds no mutable
state (its only module-level bindings are constants), so successive
invocations are modelled as independent applications of diagnose; the
image outcome is irrelevant on the Siriraj path and fixed to a failure. -/
def runBatch (as : List PatientAssessment) :
    List (Except EngineError DiagnosisResult) :=
  as.map (fun a => diagnose a ImageOutcome.failed)

/-! ## The client-side validator, from symptomSchema -/

/-- An uploaded file as seen by the ctScanImage refinements of
symptomSchema: a size in bytes and a MIME type. -/
structure RawFile where
  size : ℕ
  mime : String
deriving DecidableEq

/-- The image formats accepted by symptomSchema. -/
def acceptedImageTypes : List String :=
  ["image/jpeg", "image/jpg", "image/png"]

/-- The maximum accepted image size of symptomSchema, 5 megabytes. -/
def maxFileSize : ℕ := 5 * 1024 * 1024

/-- The ctScanImage refinements of symptomSchema: the field is optional,
and a present file must be at most maxFileSize bytes and of an accepted
image type. -/
def checkFile : Option RawFile → Bool
  | none => true
  | some f => decide (f.size ≤ maxFileSize) && acceptedImageTypes.contains f.mime

/-- A raw numeric form field before zod coercion: it can be missing, it can
fail to coerce to a number (NaN), or it can coerce to a value. -/
inductive RawNum
  | missing
  | notNum
  | val (q : ℚ)
deriving DecidableEq

/-- A raw optional numeric form field: as RawNum, with the empty string
additionally accepted by the schema (the or-empty-literal branch). -/
inductive RawOptNum
  | missing
  | emptyText
  | notNum
  | val (q : ℚ)
deriving DecidableEq

/-- Coercion and check of a required numeric field, from
z.coerce.number().min(0): a missing field coerces to NaN and is rejected,
a non-numeric field is rejected, and a value is accepted exactly when it
is non-negative. -/
def parseNum : RawNum → Option ℚ
  | .missing => none
  | .notNum => none
  | .val q => if 0 ≤ q then some q else none

/-- Coercion and check of the optional systolic field, from
z.coerce.number().min(0).optional() or the empty literal: absent and empty
inputs are accepted as no value, and a present value must be a
non-negative number. -/
def parseOptNum : RawOptNum → Option (Option ℚ)
  | .missing => some none
  | .emptyText => some none
  | .notNum => none
  | .val q => if 0 ≤ q then some (some q) else none

/-- A raw symptom-form record before validation: every field may be absent.
Booleans carry an Option to distinguish an omitted switch from an explicit
value. -/
structure RawSymptomForm where
  ctScanImage : Option RawFile
  timeSinceOnset : RawNum
  faceDroop : Option Bool
  speechSlurred : Option Bool
  armWeakness : Option ArmWeakness
  systolicBloodPressure : RawOptNum
  historyHypertension : Option Bool
  historyDiabetes : Option Bool
  historySmoking : Option Bool
  levelOfConsciousness : Option LevelOfConsciousness
  vomiting : Option Bool
  headache : Option Bool
  diastolicBloodPressure : RawNum
deriving DecidableEq

/-- The validated form values produced by symptomSchema. -/
structure SymptomFormValues where
  ctScanImage : Option RawFile
  timeSinceOnset : ℚ
  faceDroop : Bool
  speechSlurred : Bool
  armWeakness : ArmWeakness
  systolicBloodPressure : Option ℚ
  historyHypertension : Bool
  historyDiabetes : Bool
  historySmoking : Bool
  levelOfConsciousness : LevelOfConsciousness
  vomiting : Bool
  headache : Bool
  diastolicBloodPressure : ℚ
deriving DecidableEq

/-- Validation of a raw record against symptomSchema: the image refinements
must pass, timeSinceOnset and diastolicBloodPressure must coerce to
non-negative numbers, armWeakness and levelOfConsciousness are required
enums, systolicBloodPressure may be absent or empty, and every boolean
field defaults to false when omitted. -/
def parseSymptomForm (r : RawSymptomForm) : Option SymptomFormValues :=
  if checkFile r.ctScanImage then
    match parseNum r.timeSinceOnset, r.armWeakness,
        parseOptNum r.systolicBloodPressure, r.levelOfConsciousness,
        parseNum r.diastolicBloodPressure with
    | some t, some aw, some sbp, some locv, some dbp =>
      some
        { ctScanImage := r.ctScanImage
          timeSinceOnset := t
          faceDroop := r.faceDroop.getD false
          speechSlurred := r.speechSlurred.getD false
          armWeakness := aw
          systolicBloodPressure := sbp
          historyHypertension := r.historyHypertension.getD false
          historyDiabetes := r.historyDiabetes.getD false
          historySmoking := r.historySmoking.getD false
          levelOfConsciousness := locv
          vomiting := r.vomiting.getD false
          headache := r.headache.getD false
          diastolicBloodPressure := dbp }
    | _, _, _, _, _ => none
  else none

/-! ## The tPA dosing calculator, from the results display -/

/-- The doses computed by the tPA dosing calculator, in milligrams, before
the two-decimal rounding applied for display. -/
structure TpaDoses where
  total : ℚ
  bolus : ℚ
  infusion : ℚ
deriving DecidableEq

/-- Outcome of a calculator run: either doses, or the invalid-weight error
toast with the doses cleared. -/
inductive CalcOutcome
  | doses (d : TpaDoses)
  | invalidWeight
deriving DecidableEq

/-- The handleCalculate handler of TpaDosingCalculator: the weight input is
parsed (a none models a NaN parse); a non-numeric or non-positive weight
reports an invalid-weight error and produces no doses; otherwise the total
dose is 0.9 mg per kg capped at 90 mg, the bolus is 10 percent of the
total and the infusion is 90 percent of the total. -/
def handleCalculate (weight : Option ℚ) : CalcOutcome :=
  match weight with
  | none => .invalidWeight
  | some w =>
    if w ≤ 0 then .invalidWeight
    else
      let totalDose := min (w * 0.9) 90
      .doses
        { total := totalDose
          bolus := totalDose * 0.1
          infusion := totalDose * 0.9 }

/-! ## Concrete assessments and records used as evaluation witnesses -/

/-- A concrete image-less assessment: comatose, vomiting and headache, a
diastolic blood pressure of 100 and a history of hypertension.  Its
Siriraj score is 4. -/
def exHem : PatientAssessment :=
  { ctScanImage := none
    timeSinceOnset := 60
    faceDroop := true
    speechSlurred := true
    armWeakness := .left
    systolicBloodPressure := some 150
    historyHypertension := true
    historyDiabetes := false
    historySmoking := false
    levelOfConsciousness := .comatose
    vomiting := true
    headache := true
    diastolicBloodPressure := 100 }

/-- A concrete image-less assessment at 269 minutes: conscious, no
vomiting, no headache, a diastolic blood pressure of 50 and a history of
hypertension.  Its Siriraj score is -10, an ischemic verdict. -/
def exIsch269 : PatientAssessment :=
  { ctScanImage := none
    timeSinceOnset := 269
    faceDroop := true
    speechSlurred := false
    armWeakness := .right
    systolicBloodPressure := none
    historyHypertension := true
    historyDiabetes := false
    historySmoking := false
    levelOfConsciousness := .conscious
    vomiting := false
    headache := false
    diastolicBloodPressure := 50 }

/-- The assessment exIsch269 with the time since onset moved to exactly
270 minutes. -/
def exIsch270 : PatientAssessment :=
  { exIsch269 with timeSinceOnset := 270 }

/-- A concrete image-less assessment whose Siriraj score is -1.4, in the
moderate magnitude band: conscious, no vomiting, no headache, no history,
diastolic blood pressure 106. -/
def exMod : PatientAssessment :=
  { ctScanImage := none
    timeSinceOnset := 60
    faceDroop := false
    speechSlurred := false
    armWeakness := .noWeakness
    systolicBloodPressure := none
    historyHypertension := false
    historyDiabetes := false
    historySmoking := false
    levelOfConsciousness := .conscious
    vomiting := false
    headache := false
    diastolicBloodPressure := 106 }

/-- A concrete image-less assessment whose Siriraj score is 0, in the weak
magnitude band: as exMod with diastolic blood pressure 120. -/
def exWk : PatientAssessment :=
  { exMod with diastolicBloodPressure := 120 }

/-- A concrete assessment carrying a CT image. -/
def exImg : PatientAssessment :=
  { exHem with ctScanImage := some "data:image/png;base64,AAAA" }

/-- A raw form record with no CT image that omits the vomiting and
headache switches while every other field is valid. -/
def exRawOmitted : RawSymptomForm :=
  { ctScanImage := none
    timeSinceOnset := .val 60
    faceDroop := some false
    speechSlurred := some false
    armWeakness := some .noWeakness
    systolicBloodPressure := .missing
    historyHypertension := some false
    historyDiabetes := some false
    historySmoking := some false
    levelOfConsciousness := some .conscious
    vomiting := none
    headache := none
    diastolicBloodPressure := .val 80 }

/-- A raw form record whose time field does not coerce to a number. -/
def exRawBadTime : RawSymptomForm :=
  { exRawOmitted with timeSinceOnset := .notNum }

/-- A raw form record whose diastolic field is absent. -/
def exRawNoDbp : RawSymptomForm :=
  { exRawOmitted with diastolicBloodPressure := .missing }

/-- A raw form record whose level-of-consciousness field is absent. -/
def exRawNoLoc : RawSymptomForm :=
  { exRawOmitted with levelOfConsciousness := none }

/-- A raw form record whose arm-weakness field is absent. -/
def exRawNoArm : RawSymptomForm :=
  { exRawOmitted with armWeakness := none }

/-- A raw form record whose systolic field does not coerce to a number. -/
def exRawBadSys : RawSymptomForm :=
  { exRawOmitted with systolicBloodPressure := .notNum }

/-- A raw form record whose systolic field coerces to a negative number. -/
def exRawNegSys : RawSymptomForm :=
  { exRawOmitted with systolicBloodPressure := .val (-5) }

/-- The validated record that parsing exRawOmitted produces: the omitted
vomiting and headache switches come out as false. -/
def exParsedOmitted : SymptomFormValues :=
  { ctScanImage := none
    timeSinceOnset := 60
    faceDroop := false
    speechSlurred := false
    armWeakness := .noWeakness
    systolicBloodPressure := none
    historyHypertension := false
    historyDiabetes := false
    historySmoking := false
    levelOfConsciousness := .conscious
    vomiting := false
    headache := false
    diastolicBloodPressure := 80 }

/-! ## Helper lemmas -/

theorem sirirajConfidence_bounds (b : Band) :
    0 ≤ sirirajConfidence b ∧ sirirajConfidence b ≤ 1 := by
  cases b <;> norm_num [sirirajConfidence]

theorem imageConfidence_bounds (c : Clarity) :
    0 ≤ imageConfidence c ∧ imageConfidence c ≤ 1 := by
  cases c <;> norm_num [imageConfidence]

theorem sirirajResult_schemaOk (a : PatientAssessment) :
    outputSchemaOk (sirirajResult a) = true := by
  have h := sirirajConfidence_bounds (scoreBand (sirirajScore a))
  simp only [outputSchemaOk, sirirajResult, Bool.and_eq_true, decide_eq_true_eq]
  exact h

theorem imageResult_schemaOk (a : PatientAssessment) (v : StrokeType)
    (c : Clarity) : outputSchemaOk (imageResult a v c) = true := by
  have h := imageConfidence_bounds c
  simp only [outputSchemaOk, imageResult, Bool.and_eq_true, decide_eq_true_eq]
  exact h

theorem diagnose_ok_iff (a : PatientAssessment) (img : ImageOutcome)
    (r : DiagnosisResult) :
    diagnose a img = .ok r ↔
      (a.ctScanImage = none ∧ r = sirirajResult a) ∨
      (∃ x v c, a.ctScanImage = some x ∧ img = .classified v c ∧
        r = imageResult a v c) := by
  constructor
  · intro h
    rw [diagnose.eq_def] at h
    cases hc : a.ctScanImage with
    | none =>
      rw [hc] at h
      simp only [sirirajResult_schemaOk, if_true] at h
      exact Or.inl ⟨rfl, (Except.ok.injEq _ _).mp h |>.symm⟩
    | some x =>
      rw [hc] at h
      cases img with
      | failed => simp at h
      | classified v c =>
        simp only [imageResult_schemaOk, if_true] at h
        exact Or.inr ⟨x, v, c, rfl, rfl, (Except.ok.injEq _ _).mp h |>.symm⟩
  · rintro (⟨hc, rfl⟩ | ⟨x, v, c, hc, rfl, rfl⟩) <;>
      simp [diagnose, hc, sirirajResult_schemaOk, imageResult_schemaOk]

theorem diagnose_ok_tpa (a : PatientAssessment) (img : ImageOutcome)
    (r : DiagnosisResult) (h : diagnose a img = .ok r) :
    r.tpaEligible = tpaRule r.strokeType a.timeSinceOnset := by
  rcases (diagnose_ok_iff a img r).1 h with ⟨_, rfl⟩ | ⟨x, v, c, _, _, rfl⟩ <;>
    simp [sirirajResult, imageResult]

theorem diagnose_ok_action (a : PatientAssessment) (img : ImageOutcome)
    (r : DiagnosisResult) (h : diagnose a img = .ok r) :
    r.action = selectAction r.strokeType r.tpaEligible := by
  rcases (diagnose_ok_iff a img r).1 h with ⟨_, rfl⟩ | ⟨x, v, c, _, _, rfl⟩ <;>
    simp [sirirajResult, imageResult]

theorem tpaRule_true_iff (st : StrokeType) (t : ℚ) :
    tpaRule st t = true ↔ st = .ischemic ∧ t < 270 := by
  simp [tpaRule]

/-! ## Claims -/

/-- C1: For every valid PatientAssessment evaluated without a CT image,
the Siriraj score equals 2.5 LOC + 2 V + 2 H + 0.1 diastolicBloodPressure
- 3 A - 12, where LOC is 0, 1 or 2 for Conscious, Drowsy or Comatose, V
and H are 1 exactly when vomiting or headache hold, and A is 1 exactly
when any of the three history flags holds; in particular for a comatose
patient with vomiting, headache, diastolic blood pressure 100 and a
history of hypertension, the score is exactly 4 and the classification is
Hemorrhagic. -/
theorem c1_siriraj_score_formula :
    (∀ a : PatientAssessment, a.ctScanImage = none →
        sirirajScore a =
          2.5 * (match a.levelOfConsciousness with
                 | .conscious => (0 : ℚ) | .drowsy => 1 | .comatose => 2)
            + 2 * (if a.vomiting then 1 else 0)
            + 2 * (if a.headache then 1 else 0)
            + 0.1 * a.diastolicBloodPressure
            - 3 * (if a.historyHypertension || a.historyDiabetes ||
                      a.historySmoking then 1 else 0)
            - 12)
    ∧ (∀ a : PatientAssessment, a.ctScanImage = none →
        a.levelOfConsciousness = .comatose → a.vomiting = true →
        a.headache = true → a.diastolicBloodPressure = 100 →
        a.historyHypertension = true →
        sirirajScore a = 4 ∧
          ∀ r, diagnose a ImageOutcome.failed = .ok r →
            r.strokeType = .hemorrhagic) := by
  constructor
  · rintro ⟨ct, t, fd, ss, aw, sbp, h1, h2, h3, loc, vo, he, dbp⟩ _
    cases loc <;> rfl
  · intro a hc hl hv hh hd hhy
    have hs : sirirajScore a = 4 := by
      simp only [sirirajScore, flag, locPoints, hl, hv, hh, hd, hhy,
        Bool.true_or, if_true]
      norm_num
    refine ⟨hs, ?_⟩
    intro r hr
    rcases (diagnose_ok_iff a _ r).1 hr with ⟨_, rfl⟩ | ⟨x, v, c, hx, _, _⟩
    · simp only [sirirajResult, hs]
      decide
    · rw [hc] at hx; cases hx

/-- C2: For every evaluation, the produced tpaEligible flag is true if and
only if the stroke type is Ischemic and the time since onset is strictly
below 270 minutes; at exactly 270 minutes the patient is not eligible,
and no field other than the stroke type and the time since onset affects
the flag. -/
theorem c2_tpa_eligibility :
    (∀ (a : PatientAssessment) (img : ImageOutcome) (r : DiagnosisResult),
        diagnose a img = .ok r →
        (r.tpaEligible = true ↔
          r.strokeType = .ischemic ∧ a.timeSinceOnset < 270))
    ∧ (∀ (a₁ a₂ : PatientAssessment) (i₁ i₂ : ImageOutcome)
          (r₁ r₂ : DiagnosisResult),
        diagnose a₁ i₁ = .ok r₁ → diagnose a₂ i₂ = .ok r₂ →
        r₁.strokeType = r₂.strokeType →
        a₁.timeSinceOnset = a₂.timeSinceOnset →
        r₁.tpaEligible = r₂.tpaEligible)
    ∧ (∀ (a : PatientAssessment) (img : ImageOutcome) (r : DiagnosisResult),
        diagnose a img = .ok r → r.strokeType = .ischemic →
        (a.timeSinceOnset = 269 → r.tpaEligible = true) ∧
        (a.timeSinceOnset = 270 → r.tpaEligible = false)) := by
  refine ⟨?_, ?_, ?_⟩
  · intro a img r h
    rw [diagnose_ok_tpa a img r h, tpaRule_true_iff]
  · intro a₁ a₂ i₁ i₂ r₁ r₂ h₁ h₂ hst ht
    rw [diagnose_ok_tpa a₁ i₁ r₁ h₁, diagnose_ok_tpa a₂ i₂ r₂ h₂, hst, ht]
  · intro a img r h hst
    constructor
    · intro h269
      rw [diagnose_ok_tpa a img r h, hst, h269]; decide
    · intro h270
      rw [diagnose_ok_tpa a img r h, hst, h270]; decide

/-- C3: The score interpreter maps a score above 1 to Hemorrhagic, a score
below -1 to Ischemic, and a score between -1 and 1 with both boundaries
included to Uncertain; in particular 1 and -1 map to Uncertain while 1.01
maps to Hemorrhagic and -1.01 to Ischemic. -/
theorem c3_score_interpreter :
    (∀ s : ℚ,
        (1 < s → interpretScore s = .hemorrhagic)
      ∧ (s < -1 → interpretScore s = .ischemic)
      ∧ (-1 ≤ s → s ≤ 1 → interpretScore s = .uncertain))
    ∧ interpretScore 1 = .uncertain
    ∧ interpretScore (-1) = .uncertain
    ∧ interpretScore 1.01 = .hemorrhagic
    ∧ interpretScore (-1.01) = .ischemic := by
  refine ⟨fun s => ⟨?_, ?_, ?_⟩, by decide, by decide,
    by norm_num [interpretScore], by norm_num [interpretScore]⟩
  · intro h
    simp [interpretScore, h]
  · intro h
    have h1 : ¬ 1 < s := by linarith
    simp [interpretScore, h, h1]
  · intro hlo hhi
    have h1 : ¬ 1 < s := not_lt.mpr hhi
    have h2 : ¬ s < -1 := not_lt.mpr hlo
    simp [interpretScore, h1, h2]

/-- C4: The action text of every produced DiagnosisResult is determined by
the pair of stroke type and tPA eligibility alone, is byte-identical
whenever two evaluations agree on that pair, and is always one of exactly
four canonical texts with no patient-specific values interpolated. -/
theorem c4_action_protocol :
    (∀ (a : PatientAssessment) (img : ImageOutcome) (r : DiagnosisResult),
        diagnose a img = .ok r →
        r.action = selectAction r.strokeType r.tpaEligible ∧
        (r.action = hemorrhagicActionText ∨
         r.action = ischemicEligibleActionText ∨
         r.action = ischemicNotEligibleActionText ∨
         r.action = uncertainActionText))
    ∧ (∀ (a₁ a₂ : PatientAssessment) (i₁ i₂ : ImageOutcome)
          (r₁ r₂ : DiagnosisResult),
        diagnose a₁ i₁ = .ok r₁ → diagnose a₂ i₂ = .ok r₂ →
        r₁.strokeType = r₂.strokeType → r₁.tpaEligible = r₂.tpaEligible →
        r₁.action = r₂.action) := by
  constructor
  · intro a img r h
    refine ⟨diagnose_ok_action a img r h, ?_⟩
    rw [diagnose_ok_action a img r h]
    cases r.strokeType <;> cases r.tpaEligible <;> simp [selectAction]
  · intro a₁ a₂ i₁ i₂ r₁ r₂ h₁ h₂ hst he
    rw [diagnose_ok_action a₁ i₁ r₁ h₁, diagnose_ok_action a₂ i₂ r₂ h₂,
      hst, he]

/-- C5: On the Siriraj path the confidence is calibrated by the magnitude
band of the score: it lies in 0.85 to 0.95 when the magnitude exceeds 2,
in 0.60 to 0.84 when the magnitude is in the half-open band above 1 and
at most 2, and in 0.40 to 0.59 when the magnitude is at most 1. -/
theorem c5_siriraj_confidence_bands :
    ∀ (a : PatientAssessment) (img : ImageOutcome) (r : DiagnosisResult),
      a.ctScanImage = none → diagnose a img = .ok r →
      ((2 < |sirirajScore a| →
          0.85 ≤ r.confidence ∧ r.confidence ≤ 0.95)
       ∧ (1 < |sirirajScore a| → |sirirajScore a| ≤ 2 →
          0.6 ≤ r.confidence ∧ r.confidence ≤ 0.84)
       ∧ (|sirirajScore a| ≤ 1 →
          0.4 ≤ r.confidence ∧ r.confidence ≤ 0.59)) := by
  intro a img r hc h
  rcases (diagnose_ok_iff a img r).1 h with ⟨_, rfl⟩ | ⟨x, v, c, hx, _, _⟩
  · refine ⟨?_, ?_, ?_⟩
    · intro h2
      simp only [sirirajResult, scoreBand, h2, if_true]
      norm_num [sirirajConfidence]
    · intro h1 h2
      have hA : ¬ 2 < |sirirajScore a| := not_lt.mpr h2
      simp only [sirirajResult, scoreBand, hA, if_false, h1, if_true]
      norm_num [sirirajConfidence]
    · intro h1
      have hA : ¬ 2 < |sirirajScore a| :=
        not_lt.mpr (le_trans h1 (by norm_num))
      have hB : ¬ 1 < |sirirajScore a| := not_lt.mpr h1
      simp only [sirirajResult, scoreBand, hA, hB, if_false]
      norm_num [sirirajConfidence]
  · rw [hc] at hx; cases hx

/-- C6: Every produced DiagnosisResult has its confidence in the closed
interval from 0 to 1, as enforced by the output schema. -/
theorem c6_confidence_unit_interval :
    ∀ (a : PatientAssessment) (img : ImageOutcome) (r : DiagnosisResult),
      diagnose a img = .ok r → 0 ≤ r.confidence ∧ r.confidence ≤ 1 := by
  intro a img r h
  rcases (diagnose_ok_iff a img r).1 h with ⟨_, rfl⟩ | ⟨x, v, c, _, _, rfl⟩
  · simpa [sirirajResult] using
      sirirajConfidence_bounds (scoreBand (sirirajScore a))
  · simpa [imageResult] using imageConfidence_bounds c

/-- C7: Strategy selection is a strict either/or.  When a CT image is
present the verdict of the image capability alone fixes the stroke type
and the Siriraj score plays no role, so two assessments with an image that
received the same capability outcome and share the time since onset yield
identical results; when the image is absent the Siriraj score alone fixes
the stroke type; and when the capability fails with an image present the
evaluation fails with the classification-unavailable error instead of
falling back to the Siriraj path. -/
theorem c7_strategy_routing :
    (∀ (a : PatientAssessment) (v : StrokeType) (c : Clarity)
        (r : DiagnosisResult),
        a.ctScanImage.isSome = true →
        diagnose a (.classified v c) = .ok r →
        r.strokeType = v ∧ r.methodUsed = .imageAnalysis)
    ∧ (∀ (a : PatientAssessment) (img : ImageOutcome) (r : DiagnosisResult),
        a.ctScanImage = none → diagnose a img = .ok r →
        r.strokeType = interpretScore (sirirajScore a) ∧
        r.methodUsed = .sirirajScore)
    ∧ (∀ (a₁ a₂ : PatientAssessment) (v : StrokeType) (c : Clarity)
          (r₁ r₂ : DiagnosisResult),
        a₁.ctScanImage.isSome = true → a₂.ctScanImage.isSome = true →
        a₁.timeSinceOnset = a₂.timeSinceOnset →
        diagnose a₁ (.classified v c) = .ok r₁ →
        diagnose a₂ (.classified v c) = .ok r₂ → r₁ = r₂)
    ∧ (∀ a : PatientAssessment, a.ctScanImage.isSome = true →
        diagnose a ImageOutcome.failed = .error .classificationUnavailable) := by
  refine ⟨?_, ?_, ?_, ?_⟩
  · intro a v c r hi h
    rcases (diagnose_ok_iff a _ r).1 h with ⟨hc, _⟩ | ⟨x, v', c', hc, hcl, rfl⟩
    · rw [hc] at hi; cases hi
    · cases hcl
      simp [imageResult]
  · intro a img r hc h
    rcases (diagnose_ok_iff a img r).1 h with ⟨_, rfl⟩ | ⟨x, v, c, hx, _, _⟩
    · simp [sirirajResult]
    · rw [hc] at hx; cases hx
  · intro a₁ a₂ v c r₁ r₂ hi₁ hi₂ ht h₁ h₂
    rcases (diagnose_ok_iff a₁ _ r₁).1 h₁ with ⟨hc, _⟩ | ⟨x, v', c', _, hcl, rfl⟩
    · rw [hc] at hi₁; cases hi₁
    rcases (diagnose_ok_iff a₂ _ r₂).1 h₂ with ⟨hc, _⟩ | ⟨y, v'', c'', _, hcl', rfl⟩
    · rw [hc] at hi₂; cases hi₂
    cases hcl; cases hcl'
    simp [imageResult, ht]
  · intro a hi
    rw [diagnose.eq_def]
    cases hc : a.ctScanImage with
    | none => rw [hc] at hi; cases hi
    | some x => rfl

/-- C9: Evaluation through the flow is stateless and idempotent: in a batch
of successive evaluations the result at a position depends only on the
assessment at that position, the same assessment occurring twice in one
batch yields byte-identical results at both positions, and evaluating the
identical assessment twice in a row yields byte-identical results. -/
theorem c9_stateless_idempotent :
    (∀ (pre post : List PatientAssessment) (a : PatientAssessment),
        (runBatch (pre ++ a :: post))[pre.length]? =
          some (diagnose a ImageOutcome.failed))
    ∧ (∀ (pre mid post : List PatientAssessment) (a : PatientAssessment),
        (runBatch (pre ++ a :: (mid ++ a :: post)))[pre.length]? =
          (runBatch
            (pre ++ a :: (mid ++ a :: post)))[pre.length + 1 + mid.length]?)
    ∧ (∀ a : PatientAssessment,
        runBatch [a, a] =
          [diagnose a ImageOutcome.failed, diagnose a ImageOutcome.failed]) := by
  have key : ∀ (pre post : List PatientAssessment) (a : PatientAssessment),
      (runBatch (pre ++ a :: post))[pre.length]? =
        some (diagnose a ImageOutcome.failed) := by
    intro pre post a
    rw [runBatch, List.getElem?_map, List.getElem?_append_right le_rfl]
    simp
  refine ⟨key, ?_, ?_⟩
  · intro pre mid post a
    have h₁ := key pre (mid ++ a :: post) a
    have h₂ := key (pre ++ a :: mid) post a
    rw [List.append_assoc, List.cons_append] at h₂
    rw [List.length_append, List.length_cons] at h₂
    rw [show pre.length + 1 + mid.length = pre.length + (mid.length + 1) by
      omega]
    rw [h₁, h₂]
  · intro a
    simp [runBatch]

/-- C10: The tPA dosing calculator produces, for every parsed positive
weight, a total dose of 0.9 mg per kg capped at 90 mg, a bolus of 10
percent of the total and an infusion of 90 percent of the total, which sum
back to the total exactly before display rounding; a non-numeric or
non-positive weight input produces no doses and reports the invalid-weight
error. -/
theorem c10_dosing_calculator :
    (∀ (w : ℚ) (d : TpaDoses), handleCalculate (some w) = .doses d →
        d.total = min (0.9 * w) 90 ∧ d.total ≤ 90 ∧
        d.bolus = 0.1 * d.total ∧ d.infusion = 0.9 * d.total ∧
        d.bolus + d.infusion = d.total)
    ∧ (∀ w : ℚ, 0 < w → ∃ d, handleCalculate (some w) = .doses d)
    ∧ handleCalculate none = .invalidWeight
    ∧ (∀ w : ℚ, w ≤ 0 → handleCalculate (some w) = .invalidWeight) := by
  refine ⟨?_, ?_, rfl, ?_⟩
  · intro w d h
    rw [handleCalculate] at h
    split at h
    · cases h
    · cases h
      refine ⟨by rw [mul_comm], min_le_right _ _, ?_, ?_, ?_⟩ <;> ring
  · intro w hw
    refine ⟨⟨min (w * 0.9) 90, min (w * 0.9) 90 * 0.1,
      min (w * 0.9) 90 * 0.9⟩, ?_⟩
    rw [handleCalculate, if_neg (not_le.mpr hw)]
  · intro w hw
    rw [handleCalculate, if_pos hw]

/-- C8 counterexample: a raw record with no CT image that omits the
vomiting and headache fields is not rejected; validation succeeds and
silently defaults both fields to false, contradicting the claim that
their absence without an image is a MissingDataError and that the
assessment is never scored with a defaulted value for them. -/
theorem c8_counterexample :
    exRawOmitted.ctScanImage = none ∧ exRawOmitted.vomiting = none ∧
      exRawOmitted.headache = none ∧
      ∃ f, parseSymptomForm exRawOmitted = some f ∧
        f.vomiting = false ∧ f.headache = false := by
  exact ⟨rfl, rfl, rfl, _, rfl, rfl, rfl⟩

/-- C8 amended: validation rejects every raw input in which a numeric
field does not coerce to a non-negative number; diastolicBloodPressure,
levelOfConsciousness and armWeakness are mandatory regardless of whether
a CT image is supplied, and their absence is a validation failure; every
boolean field, including vomiting and headache, defaults to false when
omitted. -/
theorem c8_validation_rules :
    ∀ r : RawSymptomForm,
      ((¬ ∃ q : ℚ, 0 ≤ q ∧ r.timeSinceOnset = .val q) →
        parseSymptomForm r = none)
    ∧ ((¬ ∃ q : ℚ, 0 ≤ q ∧ r.diastolicBloodPressure = .val q) →
        parseSymptomForm r = none)
    ∧ (r.systolicBloodPressure = .notNum → parseSymptomForm r = none)
    ∧ ((∃ q : ℚ, q < 0 ∧ r.systolicBloodPressure = .val q) →
        parseSymptomForm r = none)
    ∧ (r.levelOfConsciousness = none → parseSymptomForm r = none)
    ∧ (r.armWeakness = none → parseSymptomForm r = none)
    ∧ (∀ f, parseSymptomForm r = some f →
         f.vomiting = r.vomiting.getD false ∧
         f.headache = r.headache.getD false ∧
         f.faceDroop = r.faceDroop.getD false ∧
         f.speechSlurred = r.speechSlurred.getD false ∧
         f.historyHypertension = r.historyHypertension.getD false ∧
         f.historyDiabetes = r.historyDiabetes.getD false ∧
         f.historySmoking = r.historySmoking.getD false) := by
  intro r
  have hnone : ∀ (h : parseNum r.timeSinceOnset = none ∨
      r.armWeakness = none ∨
      parseOptNum r.systolicBloodPressure = none ∨
      r.levelOfConsciousness = none ∨
      parseNum r.diastolicBloodPressure = none),
      parseSymptomForm r = none := by
    intro h
    rw [parseSymptomForm]
    split
    · cases h1 : parseNum r.timeSinceOnset <;>
        cases h2 : r.armWeakness <;>
        cases h3 : parseOptNum r.systolicBloodPressure <;>
        cases h4 : r.levelOfConsciousness <;>
        cases h5 : parseNum r.diastolicBloodPressure <;>
        simp_all
    · rfl
  have hparseNum : ∀ n : RawNum, (¬ ∃ q : ℚ, 0 ≤ q ∧ n = .val q) →
      parseNum n = none := by
    intro n hn
    cases n with
    | missing => rfl
    | notNum => rfl
    | val q =>
      rw [parseNum, if_neg]
      intro hq
      exact hn ⟨q, hq, rfl⟩
  refine ⟨?_, ?_, ?_, ?_, ?_, ?_, ?_⟩
  · intro h
    exact hnone (Or.inl (hparseNum _ h))
  · intro h
    exact hnone (Or.inr (Or.inr (Or.inr (Or.inr (hparseNum _ h)))))
  · intro h
    refine hnone (Or.inr (Or.inr (Or.inl ?_)))
    rw [h]; rfl
  · rintro ⟨q, hq, h⟩
    refine hnone (Or.inr (Or.inr (Or.inl ?_)))
    rw [h, parseOptNum, if_neg (not_le.mpr hq)]
  · intro h
    exact hnone (Or.inr (Or.inr (Or.inr (Or.inl h))))
  · intro h
    exact hnone (Or.inr (Or.inl h))
  · intro f hf
    rw [parseSymptomForm] at hf
    split at hf
    · cases h1 : parseNum r.timeSinceOnset <;>
        cases h2 : r.armWeakness <;>
        cases h3 : parseOptNum r.systolicBloodPressure <;>
        cases h4 : r.levelOfConsciousness <;>
        cases h5 : parseNum r.diastolicBloodPressure <;>
        (rw [h1, h2, h3, h4, h5] at hf; cases hf <;> simp)
    · cases hf

/-! ## Evaluation lemmas for the concrete records -/

theorem exHem_score : sirirajScore exHem = 4 := by
  norm_num [sirirajScore, exHem, locPoints, flag]

theorem exIsch269_score : sirirajScore exIsch269 = -10 := by
  norm_num [sirirajScore, exIsch269, locPoints, flag]

theorem exIsch270_score : sirirajScore exIsch270 = -10 := by
  norm_num [sirirajScore, exIsch270, exIsch269, locPoints, flag]

theorem exMod_score : sirirajScore exMod = -1.4 := by
  norm_num [sirirajScore, exMod, locPoints, flag]

theorem exWk_score : sirirajScore exWk = 0 := by
  norm_num [sirirajScore, exWk, exMod, locPoints, flag]

theorem exIsch269_stroke : (sirirajResult exIsch269).strokeType = .ischemic := by
  simp only [sirirajResult]
  rw [exIsch269_score]
  norm_num [interpretScore]

theorem exIsch270_stroke : (sirirajResult exIsch270).strokeType = .ischemic := by
  simp only [sirirajResult]
  rw [exIsch270_score]
  norm_num [interpretScore]

theorem exHem_strong : 2 < |sirirajScore exHem| := by
  rw [exHem_score, abs_of_pos (by norm_num : (0 : ℚ) < 4)]
  norm_num

theorem exMod_band : 1 < |sirirajScore exMod| ∧ |sirirajScore exMod| ≤ 2 := by
  rw [exMod_score, abs_of_neg (by norm_num : (-1.4 : ℚ) < 0)]
  norm_num

theorem exWk_weak : |sirirajScore exWk| ≤ 1 := by
  rw [exWk_score, abs_zero]
  norm_num

theorem diagnose_exHem :
    diagnose exHem ImageOutcome.failed = .ok (sirirajResult exHem) :=
  (diagnose_ok_iff exHem ImageOutcome.failed (sirirajResult exHem)).2
    (Or.inl ⟨rfl, rfl⟩)

theorem diagnose_exIsch269 :
    diagnose exIsch269 ImageOutcome.failed = .ok (sirirajResult exIsch269) :=
  (diagnose_ok_iff exIsch269 ImageOutcome.failed (sirirajResult exIsch269)).2
    (Or.inl ⟨rfl, rfl⟩)

theorem diagnose_exIsch270 :
    diagnose exIsch270 ImageOutcome.failed = .ok (sirirajResult exIsch270) :=
  (diagnose_ok_iff exIsch270 ImageOutcome.failed (sirirajResult exIsch270)).2
    (Or.inl ⟨rfl, rfl⟩)

theorem diagnose_exMod :
    diagnose exMod ImageOutcome.failed = .ok (sirirajResult exMod) :=
  (diagnose_ok_iff exMod ImageOutcome.failed (sirirajResult exMod)).2
    (Or.inl ⟨rfl, rfl⟩)

theorem diagnose_exWk :
    diagnose exWk ImageOutcome.failed = .ok (sirirajResult exWk) :=
  (diagnose_ok_iff exWk ImageOutcome.failed (sirirajResult exWk)).2
    (Or.inl ⟨rfl, rfl⟩)

theorem diagnose_exImg :
    diagnose exImg (.classified .ischemic .high) =
      .ok (imageResult exImg .ischemic .high) :=
  (diagnose_ok_iff exImg (.classified .ischemic .high)
      (imageResult exImg .ischemic .high)).2
    (Or.inr ⟨"data:image/png;base64,AAAA", .ischemic, .high, rfl, rfl, rfl⟩)

/-! ## Witnesses -/

/-- Witness for C1 at the concrete assessment exHem. -/
theorem c1_witness :
    sirirajScore exHem = 4 ∧
      ∀ r, diagnose exHem ImageOutcome.failed = .ok r →
        r.strokeType = .hemorrhagic :=
  c1_siriraj_score_formula.2 exHem rfl rfl rfl rfl rfl rfl

/-- Witness for C2 at the eligibility boundary: an ischemic verdict at 269
minutes is eligible, at 270 minutes it is not. -/
theorem c2_witness :
    (sirirajResult exIsch269).tpaEligible = true ∧
      (sirirajResult exIsch270).tpaEligible = false :=
  ⟨(c2_tpa_eligibility.1 exIsch269 ImageOutcome.failed _
      diagnose_exIsch269).mpr ⟨exIsch269_stroke, by decide⟩,
   (c2_tpa_eligibility.2.2 exIsch270 ImageOutcome.failed _
      diagnose_exIsch270 exIsch270_stroke).2 rfl⟩

/-- Witness for C3 at the concrete scores 5, -5 and 0. -/
theorem c3_witness :
    interpretScore 5 = .hemorrhagic ∧ interpretScore (-5) = .ischemic ∧
      interpretScore 0 = .uncertain :=
  ⟨(c3_score_interpreter.1 5).1 (by decide),
   (c3_score_interpreter.1 (-5)).2.1 (by decide),
   (c3_score_interpreter.1 0).2.2 (by decide) (by decide)⟩

/-- Witness for C4 at the concrete assessment exHem. -/
theorem c4_witness :
    (sirirajResult exHem).action =
        selectAction (sirirajResult exHem).strokeType
          (sirirajResult exHem).tpaEligible ∧
      ((sirirajResult exHem).action = hemorrhagicActionText ∨
       (sirirajResult exHem).action = ischemicEligibleActionText ∨
       (sirirajResult exHem).action = ischemicNotEligibleActionText ∨
       (sirirajResult exHem).action = uncertainActionText) :=
  c4_action_protocol.1 exHem ImageOutcome.failed _ diagnose_exHem

/-- Witness for C5: one concrete assessment per magnitude band. -/
theorem c5_witness :
    (0.85 ≤ (sirirajResult exHem).confidence ∧
      (sirirajResult exHem).confidence ≤ 0.95)
    ∧ (0.6 ≤ (sirirajResult exMod).confidence ∧
      (sirirajResult exMod).confidence ≤ 0.84)
    ∧ (0.4 ≤ (sirirajResult exWk).confidence ∧
      (sirirajResult exWk).confidence ≤ 0.59) :=
  ⟨(c5_siriraj_confidence_bands exHem ImageOutcome.failed _ rfl
      diagnose_exHem).1 exHem_strong,
   (c5_siriraj_confidence_bands exMod ImageOutcome.failed _ rfl
      diagnose_exMod).2.1 exMod_band.1 exMod_band.2,
   (c5_siriraj_confidence_bands exWk ImageOutcome.failed _ rfl
      diagnose_exWk).2.2 exWk_weak⟩

/-- Witness for C6 at the concrete assessment exHem. -/
theorem c6_witness :
    0 ≤ (sirirajResult exHem).confidence ∧
      (sirirajResult exHem).confidence ≤ 1 :=
  c6_confidence_unit_interval exHem ImageOutcome.failed _ diagnose_exHem

/-- Witness for C7: an image-backed evaluation takes the capability
verdict, an image-less one the Siriraj verdict, and a failed capability
with an image present surfaces the classification-unavailable error. -/
theorem c7_witness :
    ((imageResult exImg .ischemic .high).strokeType = .ischemic ∧
      (imageResult exImg .ischemic .high).methodUsed = .imageAnalysis)
    ∧ ((sirirajResult exHem).strokeType =
        interpretScore (sirirajScore exHem) ∧
      (sirirajResult exHem).methodUsed = .sirirajScore)
    ∧ diagnose exImg ImageOutcome.failed = .error .classificationUnavailable :=
  ⟨c7_strategy_routing.1 exImg .ischemic .high _ rfl diagnose_exImg,
   c7_strategy_routing.2.1 exHem ImageOutcome.failed _ rfl diagnose_exHem,
   c7_strategy_routing.2.2.2 exImg rfl⟩

/-- Witness for the amended C8 at concrete raw records: each mandatory
field rejection fires, and the omitted switches of exRawOmitted come out
defaulted to false. -/
theorem c8_witness :
    parseSymptomForm exRawBadTime = none ∧
      parseSymptomForm exRawNoDbp = none ∧
      parseSymptomForm exRawBadSys = none ∧
      parseSymptomForm exRawNegSys = none ∧
      parseSymptomForm exRawNoLoc = none ∧
      parseSymptomForm exRawNoArm = none ∧
      (exParsedOmitted.vomiting = exRawOmitted.vomiting.getD false ∧
       exParsedOmitted.headache = exRawOmitted.headache.getD false ∧
       exParsedOmitted.faceDroop = exRawOmitted.faceDroop.getD false ∧
       exParsedOmitted.speechSlurred = exRawOmitted.speechSlurred.getD false ∧
       exParsedOmitted.historyHypertension =
         exRawOmitted.historyHypertension.getD false ∧
       exParsedOmitted.historyDiabetes =
         exRawOmitted.historyDiabetes.getD false ∧
       exParsedOmitted.historySmoking =
         exRawOmitted.historySmoking.getD false) :=
  ⟨(c8_validation_rules exRawBadTime).1 (by simp [exRawBadTime, exRawOmitted]),
   (c8_validation_rules exRawNoDbp).2.1 (by simp [exRawNoDbp, exRawOmitted]),
   (c8_validation_rules exRawBadSys).2.2.1 rfl,
   (c8_validation_rules exRawNegSys).2.2.2.1 ⟨-5, by decide, rfl⟩,
   (c8_validation_rules exRawNoLoc).2.2.2.2.1 rfl,
   (c8_validation_rules exRawNoArm).2.2.2.2.2.1 rfl,
   (c8_validation_rules exRawOmitted).2.2.2.2.2.2 exParsedOmitted rfl⟩

/-- Witness for C10 at a 70 kg patient and at invalid weights. -/
theorem c10_witness :
    ((63 : ℚ) = min (0.9 * 70) 90 ∧ (63 : ℚ) ≤ 90 ∧
      (6.3 : ℚ) = 0.1 * 63 ∧ (56.7 : ℚ) = 0.9 * 63 ∧
      (6.3 : ℚ) + 56.7 = 63)
    ∧ (∃ d, handleCalculate (some 70) = .doses d)
    ∧ handleCalculate (some (-5)) = .invalidWeight :=
  ⟨c10_dosing_calculator.1 70 ⟨63, 6.3, 56.7⟩ (by
      rw [handleCalculate, if_neg (by norm_num : ¬ (70 : ℚ) ≤ 0)]
      norm_num [min_def]),
   c10_dosing_calculator.2.1 70 (by decide),
   c10_dosing_calculator.2.2.2 (-5) (by decide)⟩

end NeuroAssist
